import Mathlib

/-!
A shallow embedding of `src/iot.py`, a single-file IoT data pipeline
simulator, together with theorems settling the specification's claims.

The script's observable behaviour is modelled as pure Lean functions:

* numeric values (`i/10.`, `math.sin` outputs, wall-clock times) are
  rationals; the standard-library `math.sin` is an abstract parameter
  `f : ℚ → ℚ`, since only the data flow `x = i/10 → y = f x` matters to
  the claims, never a trigonometric identity;
* wall-clock time is explicit state: each loop iteration stamps the
  current clock, and `time.sleep(1)` advances the clock by `1 + adv i`,
  where `adv i ≥ 0` is the extra real time elapsed during iteration `i`
  (writes, printing, sleep overshoot);
* side effects (prints, HTTP requests, writes, queries, `sys.exit`) are
  reified as an `Event` trace plus an optional exit code;
* the InfluxDB client is the external collaborator the spec names: its
  calls are modelled by their documented effect on an abstract store
  state (`create_database` adds a name to the database list,
  `delete_series` empties the series' point list).
-/

namespace Iot

/-- The global `measurement = 'sinwave'` from `src/iot.py`. -/
def measurement : String := "sinwave"

/-- Python's `sys.maxsize` on a 64-bit CPython build: `2^63 - 1`. -/
def sysMaxsize : Nat := 2 ^ 63 - 1

/-- One data point as built in `sensor_data`: the series name, the
`datetime.datetime.now()` timestamp, the tag `corn_field_sensor = x` and
the field `potatoe_field_sensor = y`. -/
structure Sample where
  measurement : String
  time : ℚ
  corn_field_sensor : ℚ
  potatoe_field_sensor : ℚ
deriving DecidableEq, Repr

/-- Observable side effects of the script, in program order. -/
inductive Event where
  | print (msg : String)
  | sleep (duration : Nat)
  | getRequest (u : String)
  | writePoints (s : Sample)
  | query (q : String)
  | exitProc (code : Nat)
deriving DecidableEq, Repr

/-- Network side effects: `requests.get`, `client.write_points`,
`client.query`. -/
def Event.isNetwork : Event → Bool
  | .getRequest _ => true
  | .writePoints _ => true
  | .query _ => true
  | _ => false

/-- Is this event an HTTP reachability probe (`requests.get`)? -/
def Event.isGetRequest : Event → Bool
  | .getRequest _ => true
  | _ => false

/-- Is this event a sample submission (`client.write_points`)? -/
def Event.isWritePoints : Event → Bool
  | .writePoints _ => true
  | _ => false

/-- Is this event a read-back query (`client.query`)? -/
def Event.isQuery : Event → Bool
  | .query _ => true
  | _ => false

/-- The URL `'http://{}:{}'.format(host, port)` built in `server_check`. -/
def url (host port : String) : String :=
  "http://" ++ host ++ ":" ++ port

/-- The retry loop of `server_check`: `r` remaining iterations of
`for i in range(nretries)`, `i` the current attempt index, `w` the
current `waiting_time`.  `accepts i` tells whether the `requests.get`
of attempt `i` succeeds (`false` = `ConnectionError`).  Returns the
event trace and the exit code (`none` when the function returns). -/
def server_check_loop (accepts : Nat → Bool) (u : String) :
    Nat → Nat → Nat → List Event × Option Nat
  | 0, _, _ =>
      ([Event.print ("cannot connect to " ++ u), Event.exitProc 1], some 1)
  | r + 1, i, w =>
      if accepts i then ([Event.getRequest u], none)
      else
        let rest := server_check_loop accepts u r (i + 1) (w * 2)
        (Event.getRequest u :: Event.print ("waiting for " ++ u) ::
          Event.sleep w :: rest.1, rest.2)

/-- Model of `server_check(host, port, nretries)` from `src/iot.py`: probe
`http://host:port` up to `nretries` times, doubling `waiting_time`
from 1 after each failure; on exhaustion print a diagnostic and
`sys.exit(1)`. -/
def server_check (accepts : Nat → Bool) (host port : String)
    (nretries : Nat) : List Event × Option Nat :=
  server_check_loop accepts (url host port) nretries 0 1

/-- Model of `check_db()` from `src/iot.py`: scan the list of database names
returned by `client.get_list_database()` and return `True` on the first
name equal to `dbname`. -/
def check_db (dbs : List String) (dbname : String) : Bool :=
  dbs.any (fun db => db == dbname)

/-- The part of the external store's state this script touches: the
names of existing databases and the points of series `measurement`
inside database `dbname`. -/
structure StoreState where
  databases : List String
  series_points : List Sample
deriving DecidableEq, Repr

/-- The store-state effect of `db_connection(host, port, reset)` after a
successful `server_check`: `create = not check_db()`; if absent,
`client.create_database(dbname)` adds the name; then
`client.switch_database(dbname)`; finally
`if not create and reset: client.delete_series(measurement=measurement)`
empties the series.  Returns the new state and the `create` flag. -/
def db_connection (st : StoreState) (dbname : String) (reset : Bool) :
    StoreState × Bool :=
  let create := !(check_db st.databases dbname)
  let st1 :=
    if create then { st with databases := st.databases ++ [dbname] } else st
  let st2 := if !create && reset then { st1 with series_points := [] } else st1
  (st2, create)

/-- The loop body of `sensor_data`: `k` remaining iterations of
`for i in range(...)`, `i` the current index, `now` the wall clock.
Each iteration computes `x = i/10.`, `y = f x` (`f` models `math.sin`),
stamps `datetime.datetime.now()`, emits the sample, and `time.sleep(1)`
advances the clock by `1 + adv i` with `adv i ≥ 0` the extra elapsed
time of iteration `i`. -/
def sensor_loop (f : ℚ → ℚ) (adv : Nat → ℚ) :
    Nat → Nat → ℚ → List Sample
  | 0, _, _ => []
  | k + 1, i, now =>
      let x : ℚ := (i : ℚ) / 10
      let y : ℚ := f x
      { measurement := measurement, time := now,
        corn_field_sensor := x, potatoe_field_sensor := y } ::
        sensor_loop f adv k (i + 1) (now + 1 + adv i)

/-- The iteration count of `sensor_data`: `num_of_measurements == 0` is
replaced by `sys.maxsize`; Python's `range` over a negative bound is
empty, which `Int.toNat` captures. -/
def effective_count (num_of_measurements : Int) : Nat :=
  if num_of_measurements = 0 then sysMaxsize else num_of_measurements.toNat

/-- Model of `sensor_data(num_of_measurements)` from `src/iot.py`: the list of
samples written, in submission order, starting from index 0 at clock
`t0`. -/
def sensor_data (f : ℚ → ℚ) (adv : Nat → ℚ) (t0 : ℚ)
    (num_of_measurements : Int) : List Sample :=
  sensor_loop f adv (effective_count num_of_measurements) 0 t0

/-- The query string issued by `get_entries()`:
`'select * from {}'.format(measurement)`. -/
def get_entries_query : String := "select * from " ++ measurement

/-- The event trace of `get_entries()`: a single `client.query`. -/
def get_entries_events : List Event :=
  [Event.query get_entries_query]

/-- The event trace of `signal_handler(sig, frame)` from `__main__`:
`print()`, `print('stopping')`, `pprint.pprint(get_entries())`,
`sys.exit(0)`. -/
def signal_handler_events : List Event :=
  Event.print ("") :: Event.print ("stopping") ::
    get_entries_events ++ [Event.exitProc 0]

/-- A run of the `sensor_data` loop interrupted by SIGINT after `k`
completed iterations: CPython runs the registered handler in the main
thread between loop steps, and its `sys.exit(0)` unwinds the loop.  The
trace is the writes of the completed iterations followed by the
handler's events; the process exit status is 0. -/
def interrupted_run (f : ℚ → ℚ) (adv : Nat → ℚ) (t0 : ℚ)
    (num_of_measurements : Int) (k : Nat) : List Event × Option Nat :=
  ((sensor_loop f adv (min k (effective_count num_of_measurements)) 0 t0).map
      Event.writePoints ++ signal_handler_events,
    some 0)

/-- The usage line `optparse` prints for `'%prog [OPTIONS] <host> <port>'`. -/
def usage_message : String := "Usage: iot.py [OPTIONS] <host> <port>"

/-- The `__main__` entry after option parsing: `if len(args)!=2:` print
the usage and `'please specify two arguments'` and `sys.exit(1)`;
otherwise continue with `db_connection` and the rest of the pipeline,
abstracted as `rest` (its trace begins with the network actions of
`db_connection`). -/
def main_args (args : List String) (rest : List Event × Option Nat) :
    List Event × Option Nat :=
  if args.length ≠ 2 then
    ([Event.print usage_message, Event.print ("please specify two arguments"),
      Event.exitProc 1], some 1)
  else rest

theorem sensor_loop_length (f : ℚ → ℚ) (adv : Nat → ℚ) :
    ∀ (k i : Nat) (now : ℚ), (sensor_loop f adv k i now).length = k := by
  intro k
  induction k with
  | zero => intro i now; rfl
  | succ k ih => intro i now; simp [sensor_loop, ih]

theorem sensor_loop_get? (f : ℚ → ℚ) (adv : Nat → ℚ) :
    ∀ (k j i : Nat) (now : ℚ), j < k →
    (sensor_loop f adv k i now).get? j =
      some { measurement := measurement,
             time := now + (j : ℚ) + ∑ m ∈ Finset.range j, adv (i + m),
             corn_field_sensor := ((i + j : Nat) : ℚ) / 10,
             potatoe_field_sensor := f (((i + j : Nat) : ℚ) / 10) } := by
  intro k
  induction k with
  | zero => intro j i now hj; omega
  | succ k ih =>
    intro j i now hj
    cases j with
    | zero =>
      simp [sensor_loop]
    | succ j =>
      have hjk : j < k := by omega
      have hidx : i + 1 + j = i + (j + 1) := by omega
      have hsum : ∑ m ∈ Finset.range j, adv (i + 1 + m)
          = ∑ m ∈ Finset.range j, adv (i + (m + 1)) :=
        Finset.sum_congr rfl (fun m _ => by
          rw [show i + 1 + m = i + (m + 1) by omega])
      show (sensor_loop f adv k (i + 1) (now + 1 + adv i)).get? j = _
      rw [ih j (i + 1) (now + 1 + adv i) hjk]
      simp only [Sample.mk.injEq, Option.some.injEq]
      refine ⟨trivial, ?_, by rw [hidx], by rw [hidx]⟩
      have hpeel : ∑ m ∈ Finset.range (j + 1), adv (i + m)
          = ∑ m ∈ Finset.range j, adv (i + (m + 1)) + adv i := by
        simpa using Finset.sum_range_succ' (fun m => adv (i + m)) j
      rw [hsum, hpeel]
      push_cast
      ring

theorem sensor_data_get? (f : ℚ → ℚ) (adv : Nat → ℚ) (t0 : ℚ) (n : Int)
    (i : Nat) (hi : i < effective_count n) :
    (sensor_data f adv t0 n).get? i =
      some { measurement := measurement,
             time := t0 + (i : ℚ) + ∑ m ∈ Finset.range i, adv m,
             corn_field_sensor := (i : ℚ) / 10,
             potatoe_field_sensor := f ((i : ℚ) / 10) } := by
  have h := sensor_loop_get? f adv (effective_count n) i 0 t0 hi
  simpa [sensor_data] using h

/-- C1: for every sample index `i` in range, the `i`-th sample produced
by `sensor_data` has tag value `i/10` and field value `sin(i/10)`, with
`f` modelling `math.sin`. -/
theorem sensor_data_tag_field (f : ℚ → ℚ) (adv : Nat → ℚ) (t0 : ℚ)
    (n : Int) (i : Nat) (hi : i < (sensor_data f adv t0 n).length) :
    ((sensor_data f adv t0 n).get? i).map Sample.corn_field_sensor
        = some ((i : ℚ) / 10)
    ∧ ((sensor_data f adv t0 n).get? i).map Sample.potatoe_field_sensor
        = some (f ((i : ℚ) / 10)) := by
  rw [sensor_data, sensor_loop_length] at hi
  rw [sensor_data_get? f adv t0 n i hi]
  exact ⟨rfl, rfl⟩

theorem sensor_data_tag_field_witness :
    2 < (sensor_data (fun q => q + 1) (fun _ => 0) 0 3).length
    ∧ (((sensor_data (fun q => q + 1) (fun _ => 0) 0 3).get? 2).map
          Sample.corn_field_sensor = some ((2 : ℚ) / 10)
      ∧ ((sensor_data (fun q => q + 1) (fun _ => 0) 0 3).get? 2).map
          Sample.potatoe_field_sensor = some ((2 : ℚ) / 10 + 1)) :=
  ⟨by decide, sensor_data_tag_field (fun q => q + 1) (fun _ => 0) 0 3 2
    (by decide)⟩

/-- C4: for every `N > 0`, `sensor_data` emits exactly `N` samples, the
`j`-th submitted write carrying index `j` (tag `j/10`, field `sin(j/10)`,
so the writes are in index order), and then returns. -/
theorem sensor_data_bounded_count (f : ℚ → ℚ) (adv : Nat → ℚ) (t0 : ℚ)
    (n : Int) (hn : 0 < n) :
    ((sensor_data f adv t0 n).length : Int) = n
    ∧ ∀ j : Nat, (j : Int) < n →
        ((sensor_data f adv t0 n).get? j).map Sample.corn_field_sensor
          = some ((j : ℚ) / 10)
        ∧ ((sensor_data f adv t0 n).get? j).map Sample.potatoe_field_sensor
          = some (f ((j : ℚ) / 10)) := by
  have hne : n ≠ 0 := by omega
  have heff : effective_count n = n.toNat := by
    simp [effective_count, hne]
  constructor
  · rw [sensor_data, sensor_loop_length, heff]
    exact Int.toNat_of_nonneg hn.le
  · intro j hj
    have hj' : j < effective_count n := by rw [heff]; omega
    rw [sensor_data_get? f adv t0 n j hj']
    exact ⟨rfl, rfl⟩

theorem sensor_data_bounded_count_witness :
    (0 : Int) < 2
    ∧ (((sensor_data (fun q => q) (fun _ => 0) 0 2).length : Int) = 2
      ∧ ((1 : Int) < 2 →
        ((sensor_data (fun q => q) (fun _ => 0) 0 2).get? 1).map
            Sample.corn_field_sensor = some ((1 : ℚ) / 10)
        ∧ ((sensor_data (fun q => q) (fun _ => 0) 0 2).get? 1).map
            Sample.potatoe_field_sensor = some ((1 : ℚ) / 10))) :=
  ⟨by decide,
    ⟨(sensor_data_bounded_count (fun q => q) (fun _ => 0) 0 2 (by decide)).1,
      fun h =>
        (sensor_data_bounded_count (fun q => q) (fun _ => 0) 0 2
          (by decide)).2 1 h⟩⟩

/-- C10: for every negative `num_of_measurements`, `sensor_data` emits
zero samples and performs no writes: Python's `range` over a negative
bound is empty. -/
theorem sensor_data_negative_empty (f : ℚ → ℚ) (adv : Nat → ℚ) (t0 : ℚ)
    (n : Int) (hn : n < 0) : sensor_data f adv t0 n = [] := by
  have hne : n ≠ 0 := by omega
  have heff : effective_count n = 0 := by
    simp only [effective_count, if_neg hne]
    omega
  rw [sensor_data, heff]
  rfl

theorem sensor_data_negative_empty_witness :
    (-1 : Int) < 0 ∧ sensor_data (fun q => q) (fun _ => 0) 0 (-1) = [] :=
  ⟨by decide, sensor_data_negative_empty (fun q => q) (fun _ => 0) 0 (-1)
    (by decide)⟩

/-- C3 (counterexample): with `sample_count = 0` the generator is not
unbounded: the code substitutes `sys.maxsize` for the bound, so the run
emits exactly `sysMaxsize` samples and no more — there is a bound the
sample count does not exceed. -/
theorem sensor_data_zero_not_unbounded :
    (sensor_data (fun q => q) (fun _ => 0) 0 0).length = sysMaxsize
    ∧ ¬ (∀ B : Nat, B < (sensor_data (fun q => q) (fun _ => 0) 0 0).length) := by
  have hlen : (sensor_data (fun q => q) (fun _ => 0) 0 0).length = sysMaxsize := by
    rw [sensor_data, sensor_loop_length]
    rfl
  refine ⟨hlen, fun h => ?_⟩
  have := h (sensor_data (fun q => q) (fun _ => 0) 0 0).length
  exact lt_irrefl _ this

/-- C3 (amended): invoked with `sample_count = 0`, `sensor_data`
substitutes `sys.maxsize = 2^63 - 1` for the bound and emits exactly
that many samples — a finite, though practically unbounded, sequence —
then returns on its own. -/
theorem sensor_data_zero_maxsize (f : ℚ → ℚ) (adv : Nat → ℚ) (t0 : ℚ) :
    (sensor_data f adv t0 0).length = sysMaxsize := by
  rw [sensor_data, sensor_loop_length]
  rfl

/-- C9: timestamps of successive emitted samples strictly increase:
whenever the extra elapsed time of each iteration is nonnegative, for
`i < j` the `i`-th sample's clock stamp is strictly below the `j`-th's
(each iteration sleeps a full time unit before the next stamp). -/
theorem sensor_data_time_strict_mono (f : ℚ → ℚ) (adv : Nat → ℚ)
    (t0 : ℚ) (n : Int) (hadv : ∀ m, 0 ≤ adv m) (i j : Nat) (hij : i < j)
    (si sj : Sample)
    (hsi : (sensor_data f adv t0 n).get? i = some si)
    (hsj : (sensor_data f adv t0 n).get? j = some sj) :
    si.time < sj.time := by
  obtain ⟨hjl, -⟩ := List.get?_eq_some.mp hsj
  rw [sensor_data, sensor_loop_length] at hjl
  have hil : i < effective_count n := lt_trans hij hjl
  rw [sensor_data_get? f adv t0 n i hil] at hsi
  rw [sensor_data_get? f adv t0 n j hjl] at hsj
  obtain rfl := Option.some.inj hsi
  obtain rfl := Option.some.inj hsj
  show t0 + (i : ℚ) + ∑ m ∈ Finset.range i, adv m
      < t0 + (j : ℚ) + ∑ m ∈ Finset.range j, adv m
  have hsum : ∑ m ∈ Finset.range i, adv m ≤ ∑ m ∈ Finset.range j, adv m :=
    Finset.sum_le_sum_of_subset_of_nonneg
      (Finset.range_subset.mpr hij.le) (fun m _ _ => hadv m)
  have hcast : (i : ℚ) < (j : ℚ) := by exact_mod_cast hij
  linarith

theorem sensor_data_time_strict_mono_witness :
    (∀ m : Nat, (0 : ℚ) ≤ (fun _ => (0 : ℚ)) m) ∧ 0 < 1
    ∧ (sensor_data (fun q => q) (fun _ => 0) 0 2).get? 0
        = some ⟨measurement, 0, 0, 0⟩
    ∧ (sensor_data (fun q => q) (fun _ => 0) 0 2).get? 1
        = some ⟨measurement, 1, 1 / 10, 1 / 10⟩
    ∧ (⟨measurement, 0, 0, 0⟩ : Sample).time
        < (⟨measurement, 1, 1 / 10, 1 / 10⟩ : Sample).time :=
  ⟨fun _ => le_refl 0, by decide,
    by norm_num [sensor_data, effective_count, sensor_loop],
    by norm_num [sensor_data, effective_count, sensor_loop],
    sensor_data_time_strict_mono (fun q => q) (fun _ => 0) 0 2
      (fun _ => le_refl 0) 0 1 (by decide) _ _
      (by norm_num [sensor_data, effective_count, sensor_loop])
      (by norm_num [sensor_data, effective_count, sensor_loop])⟩

/-- C2: against an endpoint that never accepts connections,
`server_check` with the default `nretries = 5` performs exactly five
`requests.get` attempts, sleeping 1, 2, 4, 8, 16 time units after the
successive failures, then prints a diagnostic naming the unreachable
URL and exits the process with status 1. -/
theorem server_check_unreachable (host port : String) :
    server_check (fun _ => false) host port 5 =
      ([Event.getRequest (url host port),
        Event.print ("waiting for " ++ url host port), Event.sleep 1,
        Event.getRequest (url host port),
        Event.print ("waiting for " ++ url host port), Event.sleep 2,
        Event.getRequest (url host port),
        Event.print ("waiting for " ++ url host port), Event.sleep 4,
        Event.getRequest (url host port),
        Event.print ("waiting for " ++ url host port), Event.sleep 8,
        Event.getRequest (url host port),
        Event.print ("waiting for " ++ url host port), Event.sleep 16,
        Event.print ("cannot connect to " ++ url host port),
        Event.exitProc 1], some 1)
    ∧ (server_check (fun _ => false) host port 5).1.countP
        Event.isGetRequest = 5 :=
  ⟨rfl, rfl⟩

theorem check_db_append_self (dbs : List String) (dbname : String) :
    check_db (dbs ++ [dbname]) dbname = true := by
  simp [check_db]

theorem db_connection_exists_noop (st : StoreState) (dbname : String)
    (h : check_db st.databases dbname = true) :
    (db_connection st dbname false).2 = false
    ∧ (db_connection st dbname false).1 = st := by
  simp [db_connection, h]

/-- C5: if the database was freshly created (`create = true`), the reset
step of `db_connection` deletes nothing for every value of the reset
flag; if the database already existed and reset was requested, all prior
points of the series are deleted. -/
theorem db_connection_reset_step (st : StoreState) (dbname : String)
    (reset : Bool) :
    ((db_connection st dbname reset).2 = true →
      (db_connection st dbname reset).1.series_points = st.series_points)
    ∧ (check_db st.databases dbname = true → reset = true →
      (db_connection st dbname reset).1.series_points = []) := by
  cases h : check_db st.databases dbname <;> cases reset <;>
    simp [db_connection, h]

theorem db_connection_reset_step_witness :
    (db_connection ⟨[], [⟨measurement, 0, 0, 0⟩]⟩ "iotdb" true).1.series_points
        = [⟨measurement, 0, 0, 0⟩]
    ∧ (db_connection ⟨["iotdb"], [⟨measurement, 0, 0, 0⟩]⟩ "iotdb"
          true).1.series_points = [] :=
  ⟨(db_connection_reset_step ⟨[], [⟨measurement, 0, 0, 0⟩]⟩ "iotdb" true).1
      (by decide),
    (db_connection_reset_step ⟨["iotdb"], [⟨measurement, 0, 0, 0⟩]⟩ "iotdb"
      true).2 (by decide) (by decide)⟩

/-- C6: database initialization creates the database iff its name is
absent from the list of existing databases, and is idempotent: when the
name is already present nothing is created and the database list is
unchanged, the name is always present afterwards, and a second run
creates nothing and changes nothing. -/
theorem db_connection_ensure_idempotent (st : StoreState) (dbname : String)
    (reset : Bool) :
    ((db_connection st dbname reset).2 = true
        ↔ check_db st.databases dbname = false)
    ∧ (check_db st.databases dbname = true →
        (db_connection st dbname reset).1.databases = st.databases)
    ∧ check_db (db_connection st dbname reset).1.databases dbname = true
    ∧ (db_connection (db_connection st dbname reset).1 dbname false).2 = false
    ∧ (db_connection (db_connection st dbname reset).1 dbname
        false).1.databases = (db_connection st dbname reset).1.databases := by
  have h3 : check_db (db_connection st dbname reset).1.databases dbname
      = true := by
    cases h : check_db st.databases dbname <;> cases reset <;>
      simp [db_connection, h, check_db_append_self]
  refine ⟨?_, ?_, h3, ?_, ?_⟩
  · cases h : check_db st.databases dbname <;> simp [db_connection, h]
  · intro h
    cases reset <;> simp [db_connection, h]
  · exact (db_connection_exists_noop _ dbname h3).1
  · exact congrArg StoreState.databases (db_connection_exists_noop _ dbname h3).2

theorem db_connection_ensure_idempotent_witness :
    (db_connection ⟨["iotdb"], []⟩ "iotdb" false).1.databases = ["iotdb"] :=
  (db_connection_ensure_idempotent ⟨["iotdb"], []⟩ "iotdb" false).2.1
    (by decide)

/-- C7: invoked with a number of positional arguments different from
two, the entry point prints the usage message and a diagnostic and exits
with status 1, having performed no network action. -/
theorem main_args_usage_error (args : List String)
    (rest : List Event × Option Nat) (h : args.length ≠ 2) :
    main_args args rest =
      ([Event.print usage_message,
        Event.print ("please specify two arguments"), Event.exitProc 1],
        some 1)
    ∧ (main_args args rest).1.countP Event.isNetwork = 0 := by
  unfold main_args
  rw [if_pos h]
  exact ⟨rfl, rfl⟩

theorem main_args_usage_error_witness :
    main_args [] ([], none) =
      ([Event.print usage_message,
        Event.print ("please specify two arguments"), Event.exitProc 1],
        some 1)
    ∧ (main_args [] ([], none)).1.countP Event.isNetwork = 0 :=
  main_args_usage_error [] ([], none) (by decide)

/-- C8: when the interrupt arrives after `k` completed iterations of the
generation loop, the run submits no further samples (exactly the `k`
write events already produced), invokes `get_entries` exactly once (a
single query event), and the process exits with status 0. -/
theorem countP_isWritePoints_map (l : List Sample) :
    (l.map Event.writePoints).countP Event.isWritePoints = l.length := by
  induction l with
  | nil => rfl
  | cons a l ih => simp [List.countP_cons, Event.isWritePoints, ih]

theorem countP_isQuery_map (l : List Sample) :
    (l.map Event.writePoints).countP Event.isQuery = 0 := by
  induction l with
  | nil => rfl
  | cons a l ih => simp [List.countP_cons, Event.isQuery, ih]

theorem interrupted_run_reports_once (f : ℚ → ℚ) (adv : Nat → ℚ) (t0 : ℚ)
    (n : Int) (k : Nat) (hk : k < effective_count n) :
    (interrupted_run f adv t0 n k).1.countP Event.isWritePoints = k
    ∧ (interrupted_run f adv t0 n k).1.countP Event.isQuery = 1
    ∧ (interrupted_run f adv t0 n k).2 = some 0 := by
  have hmin : min k (effective_count n) = k := min_eq_left hk.le
  refine ⟨?_, ?_, rfl⟩
  · show List.countP Event.isWritePoints
        ((sensor_loop f adv (min k (effective_count n)) 0 t0).map
            Event.writePoints ++ signal_handler_events) = k
    rw [List.countP_append, countP_isWritePoints_map, sensor_loop_length, hmin]
    rfl
  · show List.countP Event.isQuery
        ((sensor_loop f adv (min k (effective_count n)) 0 t0).map
            Event.writePoints ++ signal_handler_events) = 1
    rw [List.countP_append, countP_isQuery_map]
    rfl

theorem interrupted_run_reports_once_witness :
    2 < effective_count 0
    ∧ ((interrupted_run (fun q => q) (fun _ => 0) 0 0 2).1.countP
          Event.isWritePoints = 2
      ∧ (interrupted_run (fun q => q) (fun _ => 0) 0 0 2).1.countP
          Event.isQuery = 1
      ∧ (interrupted_run (fun q => q) (fun _ => 0) 0 0 2).2 = some 0) :=
  ⟨by decide,
    interrupted_run_reports_once (fun q => q) (fun _ => 0) 0 0 2 (by decide)⟩

end Iot
